import Mathlib

/-!
Verification of the confluence-sync tool (`src/bin/main.py`) against its
natural-language specification.

The program is shallowly embedded: Python values are modelled by `PyVal`,
Python exceptions by `PyError`, and every effectful function of the script
becomes a Lean function in the monad `M`, a writer of observable `Event`s
(file reads, HTTP calls, prints) combined with exceptions.  External
collaborators (the filesystem, the markdown renderer, the HTTP service,
`os.walk`) are parameters collected in a `World`; the process environment is
a function `String → Option String`.
-/

set_option autoImplicit false

namespace ConfluenceSync

/-- Python runtime values that can flow through this program: `None`,
strings, integers, lists, tuples and string-keyed dicts. -/
inductive PyVal where
  | none : PyVal
  | str (s : String) : PyVal
  | int (n : Int) : PyVal
  | list (xs : List PyVal) : PyVal
  | tuple (xs : List PyVal) : PyVal
  | dict (entries : List (String × PyVal)) : PyVal

/-- Python exceptions that the script can raise.  `systemExit` models
`sys.exit(code)` (the `SystemExit` exception), which is not caught by the
script's `except RequestException` handler. -/
inductive PyError where
  | typeError (msg : String) : PyError
  | keyError (key : String) : PyError
  | indexError (msg : String) : PyError
  | attributeError (msg : String) : PyError
  | requestException (msg : String) : PyError
  | systemExit (code : Nat) : PyError
deriving Repr, DecidableEq

/-- Observable events of a run: reading a file, the three HTTP calls
(lookup GET with its title parameter, update PUT and create POST with their
JSON payloads), printing a message, and the final `print(links)`. -/
inductive Event where
  | fileRead (path : String) : Event
  | httpGet (url : String) (title : String) : Event
  | httpPut (url : String) (body : PyVal) : Event
  | httpPost (url : String) (body : PyVal) : Event
  | printed (msg : String) : Event
  | printedLinks (links : List String) : Event

/-- An HTTP response as the script observes it: `status_code` and the value
`response.json()` would produce. -/
structure HttpResponse where
  status_code : Nat
  body : PyVal

/-- The external collaborators, treated as black boxes per the spec:
file contents, the markdown renderer, the directory walk, and the HTTP
service.  An `Except.error msg` from an HTTP oracle models a
`requests.exceptions.RequestException` raised by that call. -/
structure World where
  fs : String → String
  render : String → String
  walk : String → List (String × List String)
  http_get : String → String → Except String HttpResponse
  http_put : String → PyVal → Except String HttpResponse
  http_post : String → PyVal → Except String HttpResponse

/-- The `envs` dictionary assembled by `load_environment_variables`: the five
required settings are present (the loader exits otherwise) and the three
optional ones are present exactly when the corresponding key was in
`os.environ`. -/
structure Envs where
  cloud : String
  user : String
  token : String
  parent_page_id : String
  space_id : String
  input_file : Option String
  input_md_directory : Option String
  exclude_files : Option String
deriving Repr, DecidableEq

/-- Python truthiness for the values of `PyVal`. -/
def PyVal.truthy : PyVal → Bool
  | PyVal.none => false
  | PyVal.str s => s ≠ ""
  | PyVal.int n => n ≠ 0
  | PyVal.list xs => ¬ xs.isEmpty
  | PyVal.tuple xs => ¬ xs.isEmpty
  | PyVal.dict xs => ¬ xs.isEmpty

/-- Association-list lookup for dict entries (first binding wins, as in the
insertion-ordered dicts this program builds). -/
def assocFind : List (String × PyVal) → String → Option PyVal
  | [], _ => Option.none
  | (k, v) :: rest, key => if k = key then Option.some v else assocFind rest key

/-- Python subscription with a string key, `x["k"]`: a dict lookup raising
`KeyError` on a missing key; a `TypeError` on every non-dict value — in
particular on tuples, which is the failure at `page_info["current_version"]`. -/
def PyVal.getStr : PyVal → String → Except PyError PyVal
  | PyVal.dict xs, k =>
    match assocFind xs k with
    | Option.some v => Except.ok v
    | Option.none => Except.error (PyError.keyError k)
  | PyVal.tuple _, _ =>
    Except.error (PyError.typeError "tuple indices must be integers or slices, not str")
  | PyVal.list _, _ =>
    Except.error (PyError.typeError "list indices must be integers or slices, not str")
  | PyVal.str _, _ => Except.error (PyError.typeError "string indices must be integers")
  | PyVal.int _, _ => Except.error (PyError.typeError "int object is not subscriptable")
  | PyVal.none, _ => Except.error (PyError.typeError "NoneType object is not subscriptable")

/-- Python subscription with an integer index, `x[i]`, for lists and tuples. -/
def PyVal.getIdx : PyVal → Nat → Except PyError PyVal
  | PyVal.list xs, i =>
    match xs.get? i with
    | Option.some v => Except.ok v
    | Option.none => Except.error (PyError.indexError "list index out of range")
  | PyVal.tuple xs, i =>
    match xs.get? i with
    | Option.some v => Except.ok v
    | Option.none => Except.error (PyError.indexError "tuple index out of range")
  | _, _ => Except.error (PyError.typeError "object is not subscriptable")

/-- Python `d.get(k)`: `None` on a missing key; an `AttributeError` when the
receiver is not a dict. -/
def pyDictGet : PyVal → String → Except PyError PyVal
  | PyVal.dict xs, k =>
    match assocFind xs k with
    | Option.some v => Except.ok v
    | Option.none => Except.ok PyVal.none
  | _, _ => Except.error (PyError.attributeError "object has no attribute get")

/-- Python `+` restricted to the shapes this program can feed it. -/
def pyAdd : PyVal → PyVal → Except PyError PyVal
  | PyVal.int a, PyVal.int b => Except.ok (PyVal.int (a + b))
  | PyVal.str a, PyVal.str b => Except.ok (PyVal.str (a ++ b))
  | _, _ => Except.error (PyError.typeError "unsupported operand types for +")

/-- Python `s + x` where `s` is a `str`: succeeds only when `x` is a `str`. -/
def pyAddStr (a : String) : PyVal → Except PyError String
  | PyVal.str s => Except.ok (a ++ s)
  | _ => Except.error (PyError.typeError "can only concatenate str to str")

/-- Python `h != v` where `h` is a `str`: false exactly on an equal string
(comparison against any other kind of value is simply unequal). -/
def pyStrNe (h : String) : PyVal → Bool
  | PyVal.str s => h ≠ s
  | _ => true

mutual

/-- Python `repr` of a value, used by string formatting of containers. -/
def pyReprOf : PyVal → String
  | PyVal.none => "None"
  | PyVal.str s => String.singleton (Char.ofNat 39) ++ s ++ String.singleton (Char.ofNat 39)
  | PyVal.int n => toString n
  | PyVal.list xs => "[" ++ String.intercalate ", " (pyReprList xs) ++ "]"
  | PyVal.tuple xs => "(" ++ String.intercalate ", " (pyReprList xs) ++ ")"
  | PyVal.dict xs => "\x7b" ++ String.intercalate ", " (pyReprDict xs) ++ "\x7d"

/-- Reprs of the elements of a list value. -/
def pyReprList : List PyVal → List String
  | [] => []
  | v :: rest => pyReprOf v :: pyReprList rest

/-- Reprs of the entries of a dict value. -/
def pyReprDict : List (String × PyVal) → List String
  | [] => []
  | (k, v) :: rest =>
    (pyReprOf (PyVal.str k) ++ ": " ++ pyReprOf v) :: pyReprDict rest

end

/-- Python `str(x)`, as used by f-string interpolation. -/
def pyStrOf : PyVal → String
  | PyVal.none => "None"
  | PyVal.str s => s
  | PyVal.int n => toString n
  | v => pyReprOf v

/-- String suffix test by character lists (Python `s.endswith(post)`),
structurally recursive so that closed runs evaluate. -/
def str_endswith (s post : String) : Bool :=
  List.isSuffixOf post.toList s.toList

/-- String prefix test by character lists (Python `s.startswith(pre)`). -/
def str_startswith (s pre : String) : Bool :=
  List.isPrefixOf pre.toList s.toList

/-- Python `s.split(sep)` for a one-character separator, by character lists. -/
def py_split (sep : Char) (s : String) : List String :=
  (s.toList.foldr
    (fun c groups =>
      if c = sep then [] :: groups
      else
        match groups with
        | g :: gs => (c :: g) :: gs
        | [] => [[c]])
    [[]]).map String.mk

/-- `os.path.join(a, b)` for POSIX paths, as the script uses it. -/
def os_path_join (a b : String) : String :=
  if str_startswith b "/" then b
  else if a = "" then b
  else if str_endswith a "/" then a ++ b
  else a ++ "/" ++ b

/-- `os.path.basename(p)`: the part after the last slash. -/
def os_path_basename (p : String) : String :=
  String.mk (p.toList.foldl (fun acc c => if c = '/' then [] else acc ++ [c]) [])

/-- Index of the last dot of a character list, if any. -/
def lastDotIdx : List Char → Option Nat
  | [] => Option.none
  | c :: rest =>
    match lastDotIdx rest with
    | Option.some i => Option.some (i + 1)
    | Option.none => if c = '.' then Option.some 0 else Option.none

/-- `os.path.splitext(p)[0]` for a name without separators: drop the part
from the last dot on, unless every character before that dot is itself a dot
(so leading-dot names keep their name whole). -/
def splitext_root (p : String) : String :=
  let cs := p.toList
  match lastDotIdx cs with
  | Option.none => p
  | Option.some i =>
    if (cs.take i).any (fun c => c ≠ '.') then String.mk (cs.take i) else p

/-- The page title derived from a markdown file path (line 76 of the source):
`os.path.splitext(os.path.basename(md_file))[0]`. -/
def page_title_of (md_file : String) : String :=
  splitext_root (os_path_basename md_file)

/-- The effect monad of the embedding: a computation yields either a value
or an uncaught Python exception, together with the list of observable events
it performed, in order. -/
abbrev M (α : Type) : Type := Except PyError α × List Event

/-- Sequencing in `M`: on success the traces concatenate; an exception skips
the continuation and keeps the trace so far. -/
def M.bind {α β : Type} (x : M α) (f : α → M β) : M β :=
  match x with
  | (Except.ok a, tr) => ((f a).1, tr ++ (f a).2)
  | (Except.error e, tr) => (Except.error e, tr)

instance : Monad M where
  pure a := (Except.ok a, [])
  bind := M.bind

/-- Record an observable event. -/
def emit (e : Event) : M Unit := (Except.ok (), [e])

/-- Raise a Python exception. -/
def throwE {α : Type} (e : PyError) : M α := (Except.error e, [])

/-- Run a pure, effect-free Python expression that may raise. -/
def liftE {α : Type} (x : Except PyError α) : M α := (x, [])

@[simp]
theorem M.bind_eq {α β : Type} (x : M α) (f : α → M β) :
    x >>= f = M.bind x f := rfl

@[simp]
theorem M.pure_eq {α : Type} (a : α) :
    (pure a : M α) = (Except.ok a, []) := rfl

@[simp]
theorem M.bind_ok {α β : Type} (a : α) (tr : List Event) (f : α → M β) :
    M.bind (Except.ok a, tr) f = ((f a).1, tr ++ (f a).2) := rfl

@[simp]
theorem M.bind_err {α β : Type} (e : PyError) (tr : List Event) (f : α → M β) :
    M.bind (Except.error e, tr) f = (Except.error e, tr) := rfl

@[simp]
theorem emit_eq (e : Event) : emit e = (Except.ok (), [e]) := rfl

@[simp]
theorem throwE_eq {α : Type} (e : PyError) : (throwE e : M α) = (Except.error e, []) := rfl

@[simp]
theorem liftE_eq {α : Type} (x : Except PyError α) : liftE x = (x, []) := rfl

@[simp]
theorem M.bind_pair {α β : Type} (x : Except PyError α) (tr : List Event) (f : α → M β) :
    M.bind (x, tr) f =
      match x with
      | Except.ok a => ((f a).1, tr ++ (f a).2)
      | Except.error e => (Except.error e, tr) := by
  cases x <;> rfl

/-- The Confluence pages endpoint used by lookup and create, lines 124 and
167 of the source. -/
def pages_url (envs : Envs) : String :=
  "https://" ++ envs.cloud ++ ".atlassian.net/wiki/api/v2/pages"

/-- The wiki base prefixed to the `webui` link fragments, lines 110 and 145. -/
def wiki_base (envs : Envs) : String :=
  "https://" ++ envs.cloud ++ ".atlassian.net/wiki"

/-- `find_page_by_title` (lines 163-183): GET the pages endpoint with the
title parameter.  On status 200 with a truthy `results` entry it returns the
3-tuple `(page_id, version_number, existing_content)` extracted from the
first match; every other completed outcome returns the 2-tuple
`(None, None)`.  A raised `RequestException` propagates to the caller.
Pure repeated subscripts of `data["results"][0]` are shared as `r0`. -/
def find_page_by_title (w : World) (page_title : String) (envs : Envs) : M PyVal := do
  let url := pages_url envs
  emit (Event.httpGet url page_title)
  match w.http_get url page_title with
  | Except.error msg => throwE (PyError.requestException msg)
  | Except.ok response =>
    if response.status_code == 200 then do
      let data := response.body
      let res ← liftE (pyDictGet data "results")
      if res.truthy then do
        let r0 ← liftE ((data.getStr "results").bind (fun rs => rs.getIdx 0))
        let page_id ← liftE (r0.getStr "id")
        let version_number ← liftE ((r0.getStr "version").bind (fun v => v.getStr "number"))
        let existing_content ← liftE ((r0.getStr "body").bind (fun b => b.getStr "storage"))
        pure (PyVal.tuple [page_id, version_number, existing_content])
      else
        pure (PyVal.tuple [PyVal.none, PyVal.none])
    else
      pure (PyVal.tuple [PyVal.none, PyVal.none])

/-- The body of `process_file`'s `try` block (lines 70-153): read and render
the file, look the title up, then branch on `page_info` — whose string
subscripts are where a completed lookup makes the function raise, since
`find_page_by_title` returned a tuple. -/
def process_file_body (w : World) (md_file : String) (envs : Envs) (links : List String) :
    M (List String) := do
  emit (Event.fileRead md_file)
  let md := w.fs md_file
  let html := w.render md
  let page_title := page_title_of md_file
  let page_info ← find_page_by_title w page_title envs
  let cv ← liftE (page_info.getStr "current_version")
  let new_version ← if cv.truthy then liftE (pyAdd cv (PyVal.int 1)) else pure PyVal.none
  let pid ← liftE (page_info.getStr "page_id")
  if pid.truthy then do
    let existing ← liftE (page_info.getStr "existing_content")
    if pyStrNe html existing then do
      let update_url := pages_url envs ++ "/" ++ pyStrOf pid
      let update_content := PyVal.dict
        [("id", pid),
         ("status", PyVal.str "current"),
         ("version", PyVal.dict [("number", new_version)]),
         ("title", PyVal.str page_title),
         ("body", PyVal.dict [("value", PyVal.str html), ("representation", PyVal.str "storage")])]
      emit (Event.httpPut update_url update_content)
      match w.http_put update_url update_content with
      | Except.error msg => throwE (PyError.requestException msg)
      | Except.ok update_response =>
        if update_response.status_code == 200 then do
          let webui ← liftE ((update_response.body.getStr "_links").bind (fun l => l.getStr "webui"))
          let updated_link ← liftE (pyAddStr (wiki_base envs) webui)
          let links := links ++ [page_title ++ ": " ++ updated_link]
          emit (Event.printed (page_title ++ ": Content update successful. New version: " ++
            pyStrOf new_version))
          pure links
        else do
          emit (Event.printed (page_title ++ ": Failed. HTTP status code: " ++
            toString update_response.status_code))
          pure links
    else do
      emit (Event.printed (page_title ++ ": Identical content, no update required."))
      pure links
  else do
    let url := pages_url envs
    let content := PyVal.dict
      [("spaceId", PyVal.str envs.space_id),
       ("status", PyVal.str "current"),
       ("title", PyVal.str page_title),
       ("parentId", PyVal.str envs.parent_page_id),
       ("body", PyVal.dict [("value", PyVal.str html), ("representation", PyVal.str "storage")])]
    emit (Event.httpPost url content)
    match w.http_post url content with
    | Except.error msg => throwE (PyError.requestException msg)
    | Except.ok response =>
      if response.status_code == 200 then do
        let webui ← liftE ((response.body.getStr "_links").bind (fun l => l.getStr "webui"))
        let link ← liftE (pyAddStr (wiki_base envs) webui)
        let links := links ++ [page_title ++ ": " ++ link]
        emit (Event.printed (page_title ++ ": Content upload successful."))
        pure links
      else do
        emit (Event.printed (page_title ++ ": Failed. HTTP status code: " ++
          toString response.status_code))
        pure links

/-- The `try ... except RequestException` of `process_file`: only a
`RequestException` is caught; the handler prints and then `sys.exit(1)`
(which raises `SystemExit`, uncaught). -/
def tryRequest {α : Type} (body : M α) (handler : String → M α) : M α :=
  match body with
  | (Except.error (PyError.requestException m), tr) =>
    ((handler m).1, tr ++ (handler m).2)
  | other => other

/-- `process_file` (lines 64-158): the `try` body wrapped in the
`RequestException` handler of lines 154-156. -/
def process_file (w : World) (md_file : String) (envs : Envs) (links : List String) :
    M (List String) :=
  tryRequest (process_file_body w md_file envs links) (fun msg => do
    emit (Event.printed ("An error occurred during the HTTP request: " ++ msg))
    throwE (PyError.systemExit 1))

/-- `os.environ[k]`: raises `KeyError` when the key is absent. -/
def environ_getitem (env : String → Option String) (k : String) : Except PyError String :=
  match env k with
  | Option.some v => Except.ok v
  | Option.none => Except.error (PyError.keyError k)

/-- `envs[k]` for an optional entry of the configuration dict: `KeyError`
when the loader did not store it. -/
def opt_getitem (o : Option String) (k : String) : Except PyError String :=
  match o with
  | Option.some v => Except.ok v
  | Option.none => Except.error (PyError.keyError k)

/-- Lines 50-53: the exclusion list is the comma-split of `exclude_files`
when that entry is present and truthy (non-empty), else empty. -/
def get_exclude (envs : Envs) : List String :=
  match envs.exclude_files with
  | Option.some s => if s ≠ "" then py_split ',' s else []
  | Option.none => []

/-- The file selection test of line 57:
`f.endswith(".md") and f not in exclude_files`. -/
def selects (exclude_files : List String) (f : String) : Bool :=
  str_endswith f ".md" && !(exclude_files.contains f)

/-- The inner loop of `process_directory` (lines 56-59) over the files of
one walk entry. -/
def files_loop (w : World) (envs : Envs) (exclude_files : List String) (root : String) :
    List String → List String → M (List String)
  | [], links => pure links
  | f :: fs, links =>
    if selects exclude_files f then do
      let md_file := os_path_join root f
      let links' ← process_file w md_file envs links
      files_loop w envs exclude_files root fs links'
    else
      files_loop w envs exclude_files root fs links

/-- The outer loop of `process_directory` (line 55) over the entries of
`os.walk(md_directory)`. -/
def walk_loop (w : World) (envs : Envs) (exclude_files : List String) :
    List (String × List String) → List String → M (List String)
  | [], links => pure links
  | (root, files) :: rest, links => do
    let links' ← files_loop w envs exclude_files root files links
    walk_loop w envs exclude_files rest links'

/-- `process_directory` (lines 43-61): resolve the directory against the
ambient workspace root (a raw `os.environ` subscript), build the exclusion
list, and walk. -/
def process_directory (w : World) (env : String → Option String) (envs : Envs)
    (links : List String) : M (List String) := do
  let workspace ← liftE (environ_getitem env "GITHUB_WORKSPACE")
  let input_md_directory ← liftE (opt_getitem envs.input_md_directory "input_md_directory")
  let md_directory := os_path_join workspace input_md_directory
  let exclude_files := get_exclude envs
  walk_loop w envs exclude_files (w.walk md_directory) links

/-- One iteration of the loop of lines 28-32: read an environment variable
with `os.environ.get`, print and `sys.exit(1)` when the value is falsy
(absent or empty). -/
def require_env (env : String → Option String) (name : String) : M String :=
  match env name with
  | Option.some v =>
    if v = "" then
      M.bind (emit (Event.printed ("Missing value for " ++ name))) (fun _ =>
        throwE (PyError.systemExit 1))
    else pure v
  | Option.none =>
    M.bind (emit (Event.printed ("Missing value for " ++ name))) (fun _ =>
      throwE (PyError.systemExit 1))

/-- The required settings, in the order of `env_var_names` (lines 19-25). -/
def env_var_names : List String :=
  ["cloud", "user", "token", "parent_page_id", "space_id"]

/-- `load_environment_variables` (lines 15-41): the loop over
`env_var_names` unrolled in its order, then the three optional settings
copied exactly when their key is in `os.environ`. -/
def load_environment_variables (env : String → Option String) : M Envs := do
  let cloud ← require_env env "cloud"
  let user ← require_env env "user"
  let token ← require_env env "token"
  let parent_page_id ← require_env env "parent_page_id"
  let space_id ← require_env env "space_id"
  pure
    { cloud := cloud, user := user, token := token,
      parent_page_id := parent_page_id, space_id := space_id,
      input_file := env "input_file",
      input_md_directory := env "input_md_directory",
      exclude_files := env "exclude_files" }

/-- The input-mode selection of lines 191-202: `"input_file" in envs` wins,
else `"input_md_directory" in envs`, else print and `sys.exit(1)`. -/
def main_select (w : World) (env : String → Option String) (envs : Envs) :
    M (List String) :=
  match envs.input_file with
  | Option.some input_file => do
    let workspace ← liftE (environ_getitem env "GITHUB_WORKSPACE")
    let single_file := os_path_join workspace input_file
    process_file w single_file envs []
  | Option.none =>
    match envs.input_md_directory with
    | Option.some _ => process_directory w env envs []
    | Option.none => do
      emit (Event.printed "No specific input provided.")
      throwE (PyError.systemExit 1)

/-- `main` (lines 185-204): load the configuration, select and run the input
mode starting from the empty link list, and print the final link list. -/
def main (w : World) (env : String → Option String) : M Unit := do
  let envs ← load_environment_variables env
  let links ← main_select w env envs
  emit (Event.printedLinks links)

/-- The process exit code of a run outcome: 0 for a normal return, the
carried code for `SystemExit`, 1 for any other uncaught exception. -/
def exitCode {α : Type} : Except PyError α → Nat
  | Except.ok _ => 0
  | Except.error (PyError.systemExit c) => c
  | Except.error _ => 1

/-- The paths one walk entry contributes to processing: its files that pass
the selection test of line 57, joined to the entry's root. -/
def entry_targets (exclude_files : List String) (root : String) (files : List String) :
    List String :=
  (files.filter (selects exclude_files)).map (fun f => os_path_join root f)

/-- The paths of a walk that pass the selection test of line 57, joined to
their roots, in loop order.  The loop attempts submissions to `process_file`
in exactly this order, but since `process_file` never returns normally, a
real run submits at most the first of them. -/
def directory_targets (walk : List (String × List String)) (exclude_files : List String) :
    List String :=
  walk.flatMap (fun e => entry_targets exclude_files e.1 e.2)

/-- All file paths a walk mentions, selected or not. -/
def all_walk_paths (walk : List (String × List String)) : List String :=
  walk.flatMap (fun e => e.2.map (fun f => os_path_join e.1 f))

/-- The message of the tuple-subscript `TypeError` raised at
`page_info["current_version"]`. -/
def tuple_subscript_msg : String := "tuple indices must be integers or slices, not str"

/-- The lookup's trace is exactly its one GET event, on every path. -/
theorem find_page_by_title_trace (w : World) (t : String) (envs : Envs) :
    (find_page_by_title w t envs).2 = [Event.httpGet (pages_url envs) t] := by
  unfold find_page_by_title
  simp only [M.bind_eq, M.bind_ok, M.bind_err, M.bind_pair, emit_eq, liftE_eq, M.pure_eq]
  repeat' split
  all_goals simp

/-- Whatever the service answers, a returned lookup value is a tuple. -/
theorem find_page_by_title_ok_tuple (w : World) (t : String) (envs : Envs) (v : PyVal)
    (h : (find_page_by_title w t envs).1 = Except.ok v) : ∃ xs, v = PyVal.tuple xs := by
  unfold find_page_by_title at h
  simp only [M.bind_eq, M.bind_ok, M.bind_err, M.bind_pair, emit_eq, liftE_eq, M.pure_eq] at h
  repeat' split at h
  all_goals simp_all
  all_goals exact ⟨_, h.symm⟩

/-- A transport failure of the lookup GET surfaces as a raised
`RequestException`, after the one GET event. -/
theorem find_page_by_title_raise (w : World) (t : String) (envs : Envs) (msg : String)
    (h : w.http_get (pages_url envs) t = Except.error msg) :
    find_page_by_title w t envs =
      (Except.error (PyError.requestException msg), [Event.httpGet (pages_url envs) t]) := by
  unfold find_page_by_title
  simp [M.bind_eq, M.bind_ok, emit_eq, h, M.bind]

/-- Master lemma for the `try` body of `process_file`: after the read and the
lookup, the tuple subscript `page_info["current_version"]` raises a
`TypeError` whenever the lookup returned, and a lookup exception propagates;
no later statement of the body is ever reached. -/
theorem process_file_body_run (w : World) (md : String) (envs : Envs) (links : List String) :
    (∃ v, (find_page_by_title w (page_title_of md) envs).1 = Except.ok v ∧
      process_file_body w md envs links =
        (Except.error (PyError.typeError tuple_subscript_msg),
         [Event.fileRead md, Event.httpGet (pages_url envs) (page_title_of md)]))
    ∨ (∃ e, (find_page_by_title w (page_title_of md) envs).1 = Except.error e ∧
      process_file_body w md envs links =
        (Except.error e,
         [Event.fileRead md, Event.httpGet (pages_url envs) (page_title_of md)])) := by
  have htr := find_page_by_title_trace w (page_title_of md) envs
  rcases hr : (find_page_by_title w (page_title_of md) envs).1 with e | v
  · right
    refine ⟨e, rfl, ?_⟩
    have hfind : find_page_by_title w (page_title_of md) envs =
        (Except.error e, [Event.httpGet (pages_url envs) (page_title_of md)]) :=
      Prod.ext_iff.mpr ⟨hr, htr⟩
    unfold process_file_body
    simp [M.bind_eq, M.bind_ok, emit_eq, hfind, M.bind]
  · left
    refine ⟨v, rfl, ?_⟩
    obtain ⟨xs, rfl⟩ := find_page_by_title_ok_tuple w (page_title_of md) envs v hr
    have hfind : find_page_by_title w (page_title_of md) envs =
        (Except.ok (PyVal.tuple xs), [Event.httpGet (pages_url envs) (page_title_of md)]) :=
      Prod.ext_iff.mpr ⟨hr, htr⟩
    unfold process_file_body
    simp [M.bind_eq, M.bind_ok, emit_eq, hfind, M.bind_pair, liftE_eq, PyVal.getStr,
      tuple_subscript_msg, M.bind]

/-- Claim-C4 core: a completed lookup makes `process_file` end in the
uncaught tuple-subscript `TypeError`, with nothing after the GET — no PUT,
no POST, no branch message. -/
theorem process_file_lookup_ok (w : World) (md : String) (envs : Envs) (links : List String)
    (v : PyVal) (h : (find_page_by_title w (page_title_of md) envs).1 = Except.ok v) :
    process_file w md envs links =
      (Except.error (PyError.typeError tuple_subscript_msg),
       [Event.fileRead md, Event.httpGet (pages_url envs) (page_title_of md)]) := by
  rcases process_file_body_run w md envs links with ⟨v', _, hbody⟩ | ⟨e, he, hbody⟩
  · unfold process_file tryRequest
    rw [hbody]
  · rw [h] at he
    exact absurd he (by simp)

/-- A transport failure of the lookup is caught, reported, and converted to
`sys.exit(1)`; the trace is the read, the GET, and the error report. -/
theorem process_file_request_error (w : World) (md : String) (envs : Envs) (links : List String)
    (msg : String) (h : w.http_get (pages_url envs) (page_title_of md) = Except.error msg) :
    process_file w md envs links =
      (Except.error (PyError.systemExit 1),
       [Event.fileRead md, Event.httpGet (pages_url envs) (page_title_of md),
        Event.printed ("An error occurred during the HTTP request: " ++ msg)]) := by
  have hfind := find_page_by_title_raise w (page_title_of md) envs msg h
  have hbody : process_file_body w md envs links =
      (Except.error (PyError.requestException msg),
       [Event.fileRead md, Event.httpGet (pages_url envs) (page_title_of md)]) := by
    unfold process_file_body
    simp [M.bind_eq, M.bind_ok, emit_eq, hfind, M.bind]
  unfold process_file tryRequest
  rw [hbody]
  simp [M.bind_eq, M.bind_ok, emit_eq, M.bind]

/-- `process_file` never returns normally: every completed lookup raises the
tuple-subscript `TypeError` (or an extraction error), and a lookup transport
failure exits. -/
theorem process_file_never_ok (w : World) (md : String) (envs : Envs) (links l : List String) :
    (process_file w md envs links).1 ≠ Except.ok l := by
  intro h
  rcases process_file_body_run w md envs links with ⟨v, _, hbody⟩ | ⟨e, _, hbody⟩
  · unfold process_file tryRequest at h
    rw [hbody] at h
    simp at h
  · unfold process_file tryRequest at h
    rw [hbody] at h
    cases e <;> simp [M.bind_eq, M.bind_ok, emit_eq, M.bind] at h

/-- The only file `process_file` ever reads is its own argument. -/
theorem process_file_reads (w : World) (md : String) (envs : Envs) (links : List String)
    (p : String) (h : Event.fileRead p ∈ (process_file w md envs links).2) : p = md := by
  rcases process_file_body_run w md envs links with ⟨v, _, hbody⟩ | ⟨e, _, hbody⟩
  · unfold process_file tryRequest at h
    rw [hbody] at h
    simp at h
    exact h
  · unfold process_file tryRequest at h
    rw [hbody] at h
    cases e <;> simp [M.bind_eq, M.bind_ok, emit_eq, M.bind] at h <;> exact h

/-- The inner loop does nothing when no file of the entry is selected. -/
theorem files_loop_none (w : World) (envs : Envs) (excl : List String) (root : String)
    (files links : List String) (h : ∀ f ∈ files, selects excl f = false) :
    files_loop w envs excl root files links = (Except.ok links, []) := by
  induction files with
  | nil => rfl
  | cons f fs ih =>
    have hf : selects excl f = false := h f (List.mem_cons_self f fs)
    simp only [files_loop, hf]
    simp only [Bool.false_eq_true, if_false]
    exact ih (fun g hg => h g (List.mem_cons_of_mem f hg))

/-- The inner loop's outcome is the first selected file's `process_file`
outcome: that call never returns normally, so nothing later runs. -/
theorem files_loop_first (w : World) (envs : Envs) (excl : List String) (root : String)
    (pre post links : List String) (f : String)
    (hpre : ∀ g ∈ pre, selects excl g = false) (hf : selects excl f = true) :
    files_loop w envs excl root (pre ++ f :: post) links =
      process_file w (os_path_join root f) envs links := by
  induction pre with
  | nil =>
    simp only [List.nil_append, files_loop, hf, if_true]
    rcases hpf : process_file w (os_path_join root f) envs links with ⟨r, tr⟩
    rcases r with e | l
    · simp [M.bind_eq, hpf, M.bind]
    · exact absurd (by rw [hpf]) (process_file_never_ok w (os_path_join root f) envs links l)
  | cons g gs ih =>
    have hg : selects excl g = false := hpre g (List.mem_cons_self g gs)
    simp only [List.cons_append, files_loop, hg, Bool.false_eq_true, if_false]
    exact ih (fun x hx => hpre x (List.mem_cons_of_mem g hx))

/-- The outer loop does nothing when the walk selects no file at all. -/
theorem walk_loop_none (w : World) (envs : Envs) (excl : List String)
    (walk : List (String × List String)) (links : List String)
    (h : directory_targets walk excl = []) :
    walk_loop w envs excl walk links = (Except.ok links, []) := by
  induction walk generalizing links with
  | nil => rfl
  | cons e rest ih =>
    rcases e with ⟨root, files⟩
    rw [directory_targets, List.flatMap_cons, List.append_eq_nil] at h
    have hfilter : files.filter (selects excl) = [] := by
      have := h.1
      unfold entry_targets at this
      exact List.map_eq_nil_iff.mp this
    have hnone : ∀ f ∈ files, selects excl f = false := by
      intro f hfmem
      by_contra hb
      have : f ∈ files.filter (selects excl) :=
        List.mem_filter.mpr ⟨hfmem, Bool.of_not_eq_false hb⟩
      simp [hfilter] at this
    simp only [walk_loop, M.bind_eq, files_loop_none w envs excl root files links hnone,
      M.bind_ok, List.nil_append]
    have := ih (h := h.2)
    rw [this]

/-- The outer loop's outcome is `process_file` on the first selected path of
the walk: that call raises, so the remaining walk is never reached. -/
theorem walk_loop_first (w : World) (envs : Envs) (excl : List String)
    (walk : List (String × List String)) (links : List String) (t : String) (ts : List String)
    (h : directory_targets walk excl = t :: ts) :
    walk_loop w envs excl walk links = process_file w t envs links := by
  induction walk generalizing links ts with
  | nil => simp [directory_targets] at h
  | cons e rest ih =>
    rcases e with ⟨root, files⟩
    rw [directory_targets, List.flatMap_cons] at h
    rcases het : entry_targets excl root files with _ | ⟨t0, ts0⟩
    · rw [het, List.nil_append] at h
      have hfilter : files.filter (selects excl) = [] := by
        unfold entry_targets at het
        exact List.map_eq_nil_iff.mp het
      have hnone : ∀ f ∈ files, selects excl f = false := by
        intro f hfmem
        by_contra hb
        have : f ∈ files.filter (selects excl) :=
          List.mem_filter.mpr ⟨hfmem, Bool.of_not_eq_false hb⟩
        simp [hfilter] at this
      simp only [walk_loop, M.bind_eq, files_loop_none w envs excl root files links hnone,
        M.bind_ok, List.nil_append]
      have := ih links ts h
      rw [this]
    · rw [het, List.cons_append] at h
      injection h with h1 h2
      subst h1
      unfold entry_targets at het
      obtain ⟨f0, fs0, hfil, hjoin, -⟩ := List.map_eq_cons_iff.mp het
      obtain ⟨l1, l2, hsplit, hl1, hsel, -⟩ := List.filter_eq_cons_iff.mp hfil
      have hl1' : ∀ g ∈ l1, selects excl g = false :=
        fun g hg => Bool.eq_false_iff.mpr (hl1 g hg)
      have hloop := files_loop_first w envs excl root l1 l2 links f0 hl1' hsel
      rcases hpf : process_file w (os_path_join root f0) envs links with ⟨r, tr⟩
      rcases r with e' | l
      · simp only [walk_loop, M.bind_eq]
        rw [hsplit, hloop, hpf, M.bind_err]
        rw [← hjoin, hpf]
      · exact absurd (by rw [hpf])
          (process_file_never_ok w (os_path_join root f0) envs links l)

/-- A selected head file prepends its joined path to the entry's targets. -/
theorem entry_targets_cons_sel (excl : List String) (root f : String) (fs : List String)
    (h : selects excl f = true) :
    entry_targets excl root (f :: fs) = os_path_join root f :: entry_targets excl root fs := by
  simp [entry_targets, List.filter_cons, h]

/-- An unselected head file contributes nothing to the entry's targets. -/
theorem entry_targets_cons_unsel (excl : List String) (root f : String) (fs : List String)
    (h : selects excl f = false) :
    entry_targets excl root (f :: fs) = entry_targets excl root fs := by
  simp [entry_targets, List.filter_cons, h]

/-- Every file the inner loop reads is a selected target of its entry. -/
theorem files_loop_reads (w : World) (envs : Envs) (excl : List String) (root : String)
    (files links : List String) (p : String)
    (h : Event.fileRead p ∈ (files_loop w envs excl root files links).2) :
    p ∈ entry_targets excl root files := by
  induction files generalizing links with
  | nil => simp [files_loop] at h
  | cons f fs ih =>
    cases hsel : selects excl f with
    | true =>
      rw [entry_targets_cons_sel excl root f fs hsel]
      simp only [files_loop, hsel, if_true, M.bind_eq] at h
      rcases hpf : process_file w (os_path_join root f) envs links with ⟨r, tr⟩
      rcases r with e | l
      · rw [hpf, M.bind_err] at h
        have : p = os_path_join root f := process_file_reads w (os_path_join root f) envs links p
          (by rw [hpf]; exact h)
        exact this ▸ List.mem_cons_self _ _
      · exact absurd (by rw [hpf]) (process_file_never_ok w (os_path_join root f) envs links l)
    | false =>
      rw [entry_targets_cons_unsel excl root f fs hsel]
      simp only [files_loop, hsel, Bool.false_eq_true, if_false] at h
      exact ih links h

/-- Every file the walk loop reads is one of the walk's selected targets. -/
theorem walk_loop_reads (w : World) (envs : Envs) (excl : List String)
    (walk : List (String × List String)) (links : List String) (p : String)
    (h : Event.fileRead p ∈ (walk_loop w envs excl walk links).2) :
    p ∈ directory_targets walk excl := by
  induction walk generalizing links with
  | nil => simp [walk_loop] at h
  | cons e rest ih =>
    rcases e with ⟨root, files⟩
    rw [directory_targets, List.flatMap_cons]
    simp only [walk_loop, M.bind_eq] at h
    rcases hfl : files_loop w envs excl root files links with ⟨r, trF⟩
    rcases r with e' | links'
    · rw [hfl, M.bind_err] at h
      exact List.mem_append_left _ (files_loop_reads w envs excl root files links p
        (by rw [hfl]; exact h))
    · rw [hfl, M.bind_ok] at h
      rcases List.mem_append.mp h with hleft | hright
      · exact List.mem_append_left _ (files_loop_reads w envs excl root files links p
          (by rw [hfl]; exact hleft))
      · exact List.mem_append_right _ (ih links' hright)

/-- With the workspace root present and a directory configured,
`process_directory` is exactly the walk loop over
`os.walk(GITHUB_WORKSPACE/input_md_directory)`. -/
theorem process_directory_run (w : World) (env : String → Option String) (envs : Envs)
    (links : List String) (ws d : String)
    (hws : env "GITHUB_WORKSPACE" = Option.some ws)
    (hd : envs.input_md_directory = Option.some d) :
    process_directory w env envs links =
      walk_loop w envs (get_exclude envs) (w.walk (os_path_join ws d)) links := by
  unfold process_directory
  simp [environ_getitem, opt_getitem, hws, hd, M.bind_eq, M.bind_ok, liftE_eq]

/-- Without the ambient workspace root, `process_directory` dies at once on
the raw `os.environ["GITHUB_WORKSPACE"]` subscript: an uncaught `KeyError`
before any walk, read or HTTP call. -/
theorem process_directory_no_workspace (w : World) (env : String → Option String)
    (envs : Envs) (links : List String) (h : env "GITHUB_WORKSPACE" = Option.none) :
    process_directory w env envs links =
      (Except.error (PyError.keyError "GITHUB_WORKSPACE"), []) := by
  unfold process_directory
  simp [environ_getitem, h, M.bind_eq, M.bind_err, liftE_eq, M.bind]

/-- Falsiness of one required setting's value: absent or empty. -/
def isMissingV : Option String → Bool
  | Option.none => true
  | Option.some s => s = ""

/-- The first required setting (in `env_var_names` order) whose value is
missing or empty, if any. -/
def first_missing (env : String → Option String) : Option String :=
  env_var_names.find? (fun n => isMissingV (env n))

/-- A falsy required setting makes its loop iteration print the diagnostic
and exit 1. -/
theorem require_env_missing (env : String → Option String) (name : String)
    (h : isMissingV (env name) = true) :
    require_env env name =
      (Except.error (PyError.systemExit 1),
       [Event.printed ("Missing value for " ++ name)]) := by
  unfold require_env
  cases henv : env name with
  | none => simp [M.bind]
  | some v =>
    rw [henv] at h
    simp only [isMissingV, decide_eq_true_eq] at h
    simp [h, M.bind]

/-- A truthy required setting passes its loop iteration silently. -/
theorem require_env_ok (env : String → Option String) (name : String)
    (h : isMissingV (env name) = false) :
    ∃ v, env name = Option.some v ∧ require_env env name = (Except.ok v, []) := by
  unfold require_env
  cases henv : env name with
  | none => rw [henv] at h; simp [isMissingV] at h
  | some v =>
    rw [henv] at h
    simp only [isMissingV, decide_eq_false_iff_not] at h
    exact ⟨v, rfl, by simp [h]⟩

/-- The loader stops at the first falsy required setting, prints exactly the
one diagnostic naming it, and exits 1 — before reading any further setting. -/
theorem load_first_missing (env : String → Option String) (name : String)
    (h : first_missing env = Option.some name) :
    load_environment_variables env =
      (Except.error (PyError.systemExit 1),
       [Event.printed ("Missing value for " ++ name)]) := by
  unfold first_missing env_var_names at h
  unfold load_environment_variables
  cases hm1 : isMissingV (env "cloud") with
  | true =>
    simp only [List.find?_cons, hm1] at h
    injection h with h
    subst h
    simp [M.bind_eq, require_env_missing env "cloud" hm1, M.bind_err]
  | false =>
    obtain ⟨v1, hv1, hreq1⟩ := require_env_ok env "cloud" hm1
    simp only [List.find?_cons, hm1] at h
    simp only [M.bind_eq, hreq1, M.bind_ok, List.nil_append]
    cases hm2 : isMissingV (env "user") with
    | true =>
      simp only [hm2] at h
      injection h with h
      subst h
      simp [M.bind_eq, require_env_missing env "user" hm2, M.bind_err]
    | false =>
      obtain ⟨v2, hv2, hreq2⟩ := require_env_ok env "user" hm2
      simp only [hm2] at h
      simp only [M.bind_eq, hreq2, M.bind_ok, List.nil_append]
      cases hm3 : isMissingV (env "token") with
      | true =>
        simp only [hm3] at h
        injection h with h
        subst h
        simp [M.bind_eq, require_env_missing env "token" hm3, M.bind_err]
      | false =>
        obtain ⟨v3, hv3, hreq3⟩ := require_env_ok env "token" hm3
        simp only [hm3] at h
        simp only [M.bind_eq, hreq3, M.bind_ok, List.nil_append]
        cases hm4 : isMissingV (env "parent_page_id") with
        | true =>
          simp only [hm4] at h
          injection h with h
          subst h
          simp [M.bind_eq, require_env_missing env "parent_page_id" hm4, M.bind_err]
        | false =>
          obtain ⟨v4, hv4, hreq4⟩ := require_env_ok env "parent_page_id" hm4
          simp only [hm4] at h
          simp only [M.bind_eq, hreq4, M.bind_ok, List.nil_append]
          cases hm5 : isMissingV (env "space_id") with
          | true =>
            simp only [hm5] at h
            injection h with h
            subst h
            simp [M.bind_eq, require_env_missing env "space_id" hm5, M.bind_err]
          | false =>
            simp only [hm5, List.find?_nil] at h
            cases h

/-- With every required setting present and non-empty, the loader succeeds
silently, storing the required values and copying the optional entries. -/
theorem load_ok (env : String → Option String) (c u t p s : String)
    (hc : env "cloud" = Option.some c) (hc' : c ≠ "")
    (hu : env "user" = Option.some u) (hu' : u ≠ "")
    (ht : env "token" = Option.some t) (ht' : t ≠ "")
    (hp : env "parent_page_id" = Option.some p) (hp' : p ≠ "")
    (hs : env "space_id" = Option.some s) (hs' : s ≠ "") :
    load_environment_variables env =
      (Except.ok
        { cloud := c, user := u, token := t, parent_page_id := p, space_id := s,
          input_file := env "input_file",
          input_md_directory := env "input_md_directory",
          exclude_files := env "exclude_files" }, []) := by
  unfold load_environment_variables require_env
  simp [hc, hc', hu, hu', ht, ht', hp, hp', hs, hs', M.bind_eq, M.bind_ok]

/-- The configuration the loader produces from a fully-populated
environment, as established by `load_ok`. -/
def envs_of (env : String → Option String) (c u t p s : String) : Envs :=
  { cloud := c, user := u, token := t, parent_page_id := p, space_id := s,
    input_file := env "input_file",
    input_md_directory := env "input_md_directory",
    exclude_files := env "exclude_files" }

/-- The renderer used by the concrete scenarios: any fixed function serves,
since the renderer is an external collaborator. -/
def render_model (s : String) : String := "<p>" ++ s ++ "</p>"

/-- A concrete configuration with all required settings present. -/
def envsBase : Envs :=
  { cloud := "site", user := "alice", token := "secret",
    parent_page_id := "100", space_id := "200",
    input_file := Option.none, input_md_directory := Option.none,
    exclude_files := Option.none }

/-- A lookup response holding one match whose stored content is the given
string, with id 123 and version 4. -/
def lookup_body (storage : String) : PyVal :=
  PyVal.dict [("results", PyVal.list [PyVal.dict
    [("id", PyVal.str "123"),
     ("version", PyVal.dict [("number", PyVal.int 4)]),
     ("body", PyVal.dict [("storage", PyVal.str storage)])]])]

/-- Scenario world for C1: the remote page's stored content equals the
rendered HTML of the local file (`render_model "hello"`). -/
def wIdent : World :=
  { fs := fun _ => "hello", render := render_model, walk := fun _ => []
    http_get := fun _ _ => Except.ok { status_code := 200, body := lookup_body "<p>hello</p>" }
    http_put := fun _ _ => Except.ok { status_code := 200, body := PyVal.dict [] }
    http_post := fun _ _ => Except.ok { status_code := 200, body := PyVal.dict [] } }

/-- Scenario world for C2 and C6: the remote page exists with different
stored content, and any update attempt would be answered with status 403. -/
def wDiff : World :=
  { fs := fun _ => "hello", render := render_model, walk := fun _ => []
    http_get := fun _ _ => Except.ok { status_code := 200, body := lookup_body "<p>old</p>" }
    http_put := fun _ _ => Except.ok { status_code := 403, body := PyVal.dict [] }
    http_post := fun _ _ => Except.ok { status_code := 200, body := PyVal.dict [] } }

/-- Scenario world for C3: the lookup succeeds with an empty match list. -/
def wEmpty : World :=
  { fs := fun _ => "hello", render := render_model, walk := fun _ => []
    http_get := fun _ _ => Except.ok
      { status_code := 200, body := PyVal.dict [("results", PyVal.list [])] }
    http_put := fun _ _ => Except.ok { status_code := 200, body := PyVal.dict [] }
    http_post := fun _ _ => Except.ok { status_code := 200, body := PyVal.dict [] } }

/-- Scenario world for C3: the lookup returns a non-success status. -/
def wNotFound : World :=
  { fs := fun _ => "hello", render := render_model, walk := fun _ => []
    http_get := fun _ _ => Except.ok { status_code := 404, body := PyVal.dict [] }
    http_put := fun _ _ => Except.ok { status_code := 200, body := PyVal.dict [] }
    http_post := fun _ _ => Except.ok { status_code := 200, body := PyVal.dict [] } }

/-- Scenario world for C5: a directory of two markdown files whose lookup
GET raises a transport error. -/
def wRaise : World :=
  { fs := fun _ => "hello", render := render_model
    walk := fun _ => [("ws/docs", ["a.md", "b.md"])]
    http_get := fun _ _ => Except.error "connection refused"
    http_put := fun _ _ => Except.ok { status_code := 200, body := PyVal.dict [] }
    http_post := fun _ _ => Except.ok { status_code := 200, body := PyVal.dict [] } }

/-- A fully-populated environment in directory mode with one excluded file. -/
def envDir : String → Option String := fun k =>
  if k = "cloud" then Option.some "site"
  else if k = "user" then Option.some "alice"
  else if k = "token" then Option.some "secret"
  else if k = "parent_page_id" then Option.some "100"
  else if k = "space_id" then Option.some "200"
  else if k = "input_md_directory" then Option.some "docs"
  else if k = "GITHUB_WORKSPACE" then Option.some "ws"
  else Option.none

/-- An environment missing the second required setting (`user`). -/
def envMissingUser : String → Option String := fun k =>
  if k = "cloud" then Option.some "site" else Option.none

/-- A fully-populated single-file environment without a workspace root. -/
def envNoWorkspace : String → Option String := fun k =>
  if k = "cloud" then Option.some "site"
  else if k = "user" then Option.some "alice"
  else if k = "token" then Option.some "secret"
  else if k = "parent_page_id" then Option.some "100"
  else if k = "space_id" then Option.some "200"
  else if k = "input_file" then Option.some "README.md"
  else Option.none

/-- C1 (code bug): for a document whose rendered HTML equals the stored
content of the existing remote page (`wIdent`: render of "hello" equals the
stored `<p>hello</p>`), `process_file` does not report "Identical content,
no update required." — it raises the uncaught tuple-subscript `TypeError`
right after the lookup, so the run dies instead of skipping the write;
no write call is indeed absent from the trace, but only because nothing
after the lookup runs. -/
theorem claim_c1 :
    process_file wIdent "guide.md" envsBase [] =
      (Except.error (PyError.typeError tuple_subscript_msg),
       [Event.fileRead "guide.md", Event.httpGet (pages_url envsBase) "guide"]) ∧
    Event.printed "guide: Identical content, no update required." ∉
      (process_file wIdent "guide.md" envsBase []).2 ∧
    (∀ u b, Event.httpPut u b ∉ (process_file wIdent "guide.md" envsBase []).2) ∧
    (∀ u b, Event.httpPost u b ∉ (process_file wIdent "guide.md" envsBase []).2) ∧
    exitCode (process_file wIdent "guide.md" envsBase []).1 = 1 := by
  refine ⟨rfl, ?_, ?_, ?_, rfl⟩
  · show Event.printed "guide: Identical content, no update required." ∉
      [Event.fileRead "guide.md", Event.httpGet (pages_url envsBase) "guide"]
    simp
  · intro u b
    show Event.httpPut u b ∉
      [Event.fileRead "guide.md", Event.httpGet (pages_url envsBase) "guide"]
    simp
  · intro u b
    show Event.httpPost u b ∉
      [Event.fileRead "guide.md", Event.httpGet (pages_url envsBase) "guide"]
    simp

/-- C2 (code bug): for a document with an existing remote page whose stored
content differs from the rendered HTML (`wDiff`), `process_file` issues no
update call at all — the tuple-subscript `TypeError` is raised before the
update branch, so no PUT with version 4 + 1 is ever sent and the run dies. -/
theorem claim_c2 :
    process_file wDiff "guide.md" envsBase [] =
      (Except.error (PyError.typeError tuple_subscript_msg),
       [Event.fileRead "guide.md", Event.httpGet (pages_url envsBase) "guide"]) ∧
    (∀ u b, Event.httpPut u b ∉ (process_file wDiff "guide.md" envsBase []).2) ∧
    exitCode (process_file wDiff "guide.md" envsBase []).1 = 1 := by
  refine ⟨rfl, ?_, rfl⟩
  intro u b
  show Event.httpPut u b ∉
    [Event.fileRead "guide.md", Event.httpGet (pages_url envsBase) "guide"]
  simp

/-- C3 (code bug): for a document whose lookup returns 200 with an empty
match list (`wEmpty`) or a non-success status (`wNotFound`), `process_file`
issues no create call and the miss is fatal: the 2-tuple `(None, None)` is
string-subscripted, raising the uncaught `TypeError` before the create
branch, so no POST appears and the run dies with exit code 1. -/
theorem claim_c3 :
    (process_file wEmpty "guide.md" envsBase [] =
      (Except.error (PyError.typeError tuple_subscript_msg),
       [Event.fileRead "guide.md", Event.httpGet (pages_url envsBase) "guide"]) ∧
     (∀ u b, Event.httpPost u b ∉ (process_file wEmpty "guide.md" envsBase []).2) ∧
     exitCode (process_file wEmpty "guide.md" envsBase []).1 = 1) ∧
    (process_file wNotFound "guide.md" envsBase [] =
      (Except.error (PyError.typeError tuple_subscript_msg),
       [Event.fileRead "guide.md", Event.httpGet (pages_url envsBase) "guide"]) ∧
     (∀ u b, Event.httpPost u b ∉ (process_file wNotFound "guide.md" envsBase []).2) ∧
     exitCode (process_file wNotFound "guide.md" envsBase []).1 = 1) := by
  refine ⟨⟨rfl, ?_, rfl⟩, ⟨rfl, ?_, rfl⟩⟩
  · intro u b
    show Event.httpPost u b ∉
      [Event.fileRead "guide.md", Event.httpGet (pages_url envsBase) "guide"]
    simp
  · intro u b
    show Event.httpPost u b ∉
      [Event.fileRead "guide.md", Event.httpGet (pages_url envsBase) "guide"]
    simp

/-- C4 (confirmed): whenever the title lookup completes and returns a value,
that value is a plain tuple, and `process_file` then raises the uncaught
`TypeError` from subscripting it with a string key: its whole run is the
read and the GET, after which the error propagates — no create, update or
skipped-identical branch can ever be reached. -/
theorem claim_c4 (w : World) (md_file : String) (envs : Envs) (links : List String)
    (v : PyVal)
    (h : (find_page_by_title w (page_title_of md_file) envs).1 = Except.ok v) :
    (∃ xs, v = PyVal.tuple xs) ∧
    process_file w md_file envs links =
      (Except.error (PyError.typeError tuple_subscript_msg),
       [Event.fileRead md_file, Event.httpGet (pages_url envs) (page_title_of md_file)]) :=
  ⟨find_page_by_title_ok_tuple w (page_title_of md_file) envs v h,
   process_file_lookup_ok w md_file envs links v h⟩

/-- Witness for C4 at the concrete identical-content scenario. -/
theorem claim_c4_witness :
    (∃ xs, (PyVal.tuple [PyVal.str "123", PyVal.int 4, PyVal.str "<p>hello</p>"] : PyVal) =
      PyVal.tuple xs) ∧
    process_file wIdent "guide.md" envsBase [] =
      (Except.error (PyError.typeError tuple_subscript_msg),
       [Event.fileRead "guide.md",
        Event.httpGet (pages_url envsBase) (page_title_of "guide.md")]) :=
  claim_c4 wIdent "guide.md" envsBase []
    (PyVal.tuple [PyVal.str "123", PyVal.int 4, PyVal.str "<p>hello</p>"]) rfl

/-- C6 (code bug): the non-200 branch of the update call is dead code — in
the scenario built to trigger it (`wDiff`: existing page, changed content,
update answered 403) no update call is issued at all, no failure line with
the status code is printed, and the run dies on the tuple-subscript
`TypeError` instead of continuing. -/
theorem claim_c6 :
    process_file wDiff "changed.md" envsBase [] =
      (Except.error (PyError.typeError tuple_subscript_msg),
       [Event.fileRead "changed.md", Event.httpGet (pages_url envsBase) "changed"]) ∧
    (∀ u b, Event.httpPut u b ∉ (process_file wDiff "changed.md" envsBase []).2) ∧
    (∀ m, Event.printed m ∉ (process_file wDiff "changed.md" envsBase []).2) ∧
    exitCode (process_file wDiff "changed.md" envsBase []).1 = 1 := by
  refine ⟨rfl, ?_, ?_, rfl⟩
  · intro u b
    show Event.httpPut u b ∉
      [Event.fileRead "changed.md", Event.httpGet (pages_url envsBase) "changed"]
    simp
  · intro m
    show Event.printed m ∉
      [Event.fileRead "changed.md", Event.httpGet (pages_url envsBase) "changed"]
    simp

/-- A fully-populated single-file environment with a workspace root. -/
def envSingle : String → Option String := fun k =>
  if k = "cloud" then Option.some "site"
  else if k = "user" then Option.some "alice"
  else if k = "token" then Option.some "secret"
  else if k = "parent_page_id" then Option.some "100"
  else if k = "space_id" then Option.some "200"
  else if k = "input_file" then Option.some "README.md"
  else if k = "GITHUB_WORKSPACE" then Option.some "ws"
  else Option.none

/-- With `input_file` present, `main_select` is the single-file branch of
lines 192-195, whatever `input_md_directory` holds. -/
theorem main_select_single_file (w : World) (env : String → Option String) (envs : Envs)
    (f : String) (h : envs.input_file = Option.some f) :
    main_select w env envs =
      M.bind (liftE (environ_getitem env "GITHUB_WORKSPACE")) (fun ws =>
        process_file w (os_path_join ws f) envs []) := by
  unfold main_select
  rw [h]
  rfl

/-- C5 (confirmed): in every run — single-file or directory mode — whose
reached lookup GET raises a transport-level `RequestException`, the whole
process terminates at once with exit code 1: the trace stops at the error
report, no other document is read, and the link list is never printed. -/
theorem claim_c5 :
    (∀ (w : World) (env : String → Option String) (c u t p s ws f msg : String),
      env "cloud" = Option.some c → c ≠ "" →
      env "user" = Option.some u → u ≠ "" →
      env "token" = Option.some t → t ≠ "" →
      env "parent_page_id" = Option.some p → p ≠ "" →
      env "space_id" = Option.some s → s ≠ "" →
      env "input_file" = Option.some f →
      env "GITHUB_WORKSPACE" = Option.some ws →
      w.http_get (pages_url (envs_of env c u t p s))
        (page_title_of (os_path_join ws f)) = Except.error msg →
      main w env =
        (Except.error (PyError.systemExit 1),
         [Event.fileRead (os_path_join ws f),
          Event.httpGet (pages_url (envs_of env c u t p s))
            (page_title_of (os_path_join ws f)),
          Event.printed ("An error occurred during the HTTP request: " ++ msg)]) ∧
      exitCode (main w env).1 = 1 ∧
      (∀ ls, Event.printedLinks ls ∉ (main w env).2) ∧
      (∀ q, q ≠ os_path_join ws f → Event.fileRead q ∉ (main w env).2)) ∧
    (∀ (w : World) (env : String → Option String) (c u t p s ws d msg t0 : String)
      (rest : List String),
      env "cloud" = Option.some c → c ≠ "" →
      env "user" = Option.some u → u ≠ "" →
      env "token" = Option.some t → t ≠ "" →
      env "parent_page_id" = Option.some p → p ≠ "" →
      env "space_id" = Option.some s → s ≠ "" →
      env "input_file" = Option.none →
      env "input_md_directory" = Option.some d →
      env "GITHUB_WORKSPACE" = Option.some ws →
      directory_targets (w.walk (os_path_join ws d))
        (get_exclude (envs_of env c u t p s)) = t0 :: rest →
      w.http_get (pages_url (envs_of env c u t p s)) (page_title_of t0) =
        Except.error msg →
      main w env =
        (Except.error (PyError.systemExit 1),
         [Event.fileRead t0,
          Event.httpGet (pages_url (envs_of env c u t p s)) (page_title_of t0),
          Event.printed ("An error occurred during the HTTP request: " ++ msg)]) ∧
      exitCode (main w env).1 = 1 ∧
      (∀ ls, Event.printedLinks ls ∉ (main w env).2) ∧
      (∀ q, q ≠ t0 → Event.fileRead q ∉ (main w env).2)) := by
  constructor
  · intro w env c u t p s ws f msg hc hc' hu hu' ht ht' hp hp' hs hs' hif hws hraise
    have hload : load_environment_variables env =
        (Except.ok (envs_of env c u t p s), []) :=
      load_ok env c u t p s hc hc' hu hu' ht ht' hp hp' hs hs'
    have hif' : (envs_of env c u t p s).input_file = Option.some f := by
      simp [envs_of, hif]
    have hsel : main_select w env (envs_of env c u t p s) =
        process_file w (os_path_join ws f) (envs_of env c u t p s) [] := by
      rw [main_select_single_file w env (envs_of env c u t p s) f hif']
      simp [environ_getitem, hws, M.bind_pair, liftE_eq]
    have hpf := process_file_request_error w (os_path_join ws f)
      (envs_of env c u t p s) [] msg hraise
    have hmain : main w env =
        (Except.error (PyError.systemExit 1),
         [Event.fileRead (os_path_join ws f),
          Event.httpGet (pages_url (envs_of env c u t p s))
            (page_title_of (os_path_join ws f)),
          Event.printed ("An error occurred during the HTTP request: " ++ msg)]) := by
      unfold main
      simp only [M.bind_eq]
      rw [hload, M.bind_ok]
      simp only [List.nil_append]
      rw [hsel, hpf, M.bind_err]
    refine ⟨hmain, by rw [hmain]; rfl, ?_, ?_⟩
    · intro ls
      rw [hmain]
      simp
    · intro q hq
      rw [hmain]
      simp [hq]
  · intro w env c u t p s ws d msg t0 rest hc hc' hu hu' ht ht' hp hp' hs hs'
      hif himd hws htargets hraise
    have hload : load_environment_variables env =
        (Except.ok (envs_of env c u t p s), []) :=
      load_ok env c u t p s hc hc' hu hu' ht ht' hp hp' hs hs'
    have hpf := process_file_request_error w t0 (envs_of env c u t p s) [] msg hraise
    have hwalk := walk_loop_first w (envs_of env c u t p s)
      (get_exclude (envs_of env c u t p s)) (w.walk (os_path_join ws d)) [] t0 rest htargets
    have hpd := process_directory_run w env (envs_of env c u t p s) [] ws d hws
      (by simp [envs_of, himd])
    have hsel : main_select w env (envs_of env c u t p s) =
        process_directory w env (envs_of env c u t p s) [] := by
      unfold main_select envs_of
      simp [hif, himd]
    have hmain : main w env =
        (Except.error (PyError.systemExit 1),
         [Event.fileRead t0,
          Event.httpGet (pages_url (envs_of env c u t p s)) (page_title_of t0),
          Event.printed ("An error occurred during the HTTP request: " ++ msg)]) := by
      unfold main
      simp only [M.bind_eq]
      rw [hload, M.bind_ok]
      simp only [List.nil_append]
      rw [hsel, hpd, hwalk, hpf, M.bind_err]
    refine ⟨hmain, by rw [hmain]; rfl, ?_, ?_⟩
    · intro ls
      rw [hmain]
      simp
    · intro q hq
      rw [hmain]
      simp [hq]

/-- Witness for C5 in both modes: a single-file run and a two-file directory
run whose lookup raises; each exits 1 without reading anything else or
printing links. -/
theorem claim_c5_witness :
    (main wRaise envSingle =
      (Except.error (PyError.systemExit 1),
       [Event.fileRead (os_path_join "ws" "README.md"),
        Event.httpGet (pages_url (envs_of envSingle "site" "alice" "secret" "100" "200"))
          (page_title_of (os_path_join "ws" "README.md")),
        Event.printed ("An error occurred during the HTTP request: " ++ "connection refused")]) ∧
     exitCode (main wRaise envSingle).1 = 1 ∧
     (∀ ls, Event.printedLinks ls ∉ (main wRaise envSingle).2) ∧
     (∀ q, q ≠ os_path_join "ws" "README.md" →
        Event.fileRead q ∉ (main wRaise envSingle).2)) ∧
    (main wRaise envDir =
      (Except.error (PyError.systemExit 1),
       [Event.fileRead "ws/docs/a.md",
        Event.httpGet (pages_url (envs_of envDir "site" "alice" "secret" "100" "200"))
          (page_title_of "ws/docs/a.md"),
        Event.printed ("An error occurred during the HTTP request: " ++ "connection refused")]) ∧
     exitCode (main wRaise envDir).1 = 1 ∧
     (∀ ls, Event.printedLinks ls ∉ (main wRaise envDir).2) ∧
     (∀ q, q ≠ "ws/docs/a.md" → Event.fileRead q ∉ (main wRaise envDir).2)) :=
  ⟨claim_c5.1 wRaise envSingle "site" "alice" "secret" "100" "200" "ws" "README.md"
    "connection refused"
    rfl (by decide) rfl (by decide) rfl (by decide) rfl (by decide) rfl (by decide)
    rfl rfl rfl,
   claim_c5.2 wRaise envDir "site" "alice" "secret" "100" "200" "ws" "docs"
    "connection refused" "ws/docs/a.md" ["ws/docs/b.md"]
    rfl (by decide) rfl (by decide) rfl (by decide) rfl (by decide) rfl (by decide)
    rfl rfl rfl rfl rfl⟩

/-- C7 (confirmed): a missing or empty required setting makes the run print
exactly one diagnostic naming the first such setting and exit 1, before any
HTTP call and before any document is read. -/
theorem claim_c7 (w : World) (env : String → Option String) (name : String)
    (h : first_missing env = Option.some name) :
    main w env =
      (Except.error (PyError.systemExit 1),
       [Event.printed ("Missing value for " ++ name)]) ∧
    exitCode (main w env).1 = 1 ∧
    (∀ u t', Event.httpGet u t' ∉ (main w env).2) ∧
    (∀ u b, Event.httpPut u b ∉ (main w env).2) ∧
    (∀ u b, Event.httpPost u b ∉ (main w env).2) ∧
    (∀ q, Event.fileRead q ∉ (main w env).2) := by
  have hload := load_first_missing env name h
  have hmain : main w env =
      (Except.error (PyError.systemExit 1),
       [Event.printed ("Missing value for " ++ name)]) := by
    unfold main
    simp only [M.bind_eq]
    rw [hload, M.bind_err]
  refine ⟨hmain, by rw [hmain]; rfl, ?_, ?_, ?_, ?_⟩
  all_goals intros
  all_goals rw [hmain]
  all_goals simp

/-- Witness for C7: with only `cloud` set, the first missing required
setting is `user` and the run exits with just that diagnostic. -/
theorem claim_c7_witness :
    main wIdent envMissingUser =
      (Except.error (PyError.systemExit 1),
       [Event.printed ("Missing value for " ++ "user")]) ∧
    exitCode (main wIdent envMissingUser).1 = 1 ∧
    (∀ u t', Event.httpGet u t' ∉ (main wIdent envMissingUser).2) ∧
    (∀ u b, Event.httpPut u b ∉ (main wIdent envMissingUser).2) ∧
    (∀ u b, Event.httpPost u b ∉ (main wIdent envMissingUser).2) ∧
    (∀ q, Event.fileRead q ∉ (main wIdent envMissingUser).2) :=
  claim_c7 wIdent envMissingUser "user" rfl

/-- The selected targets of a walk are a sublist of all its paths. -/
theorem directory_targets_sublist (walk : List (String × List String)) (excl : List String) :
    (directory_targets walk excl).Sublist (all_walk_paths walk) := by
  induction walk with
  | nil => exact List.Sublist.refl _
  | cons e rest ih =>
    simp only [directory_targets, all_walk_paths, List.flatMap_cons] at ih ⊢
    exact List.Sublist.append
      (List.Sublist.map _ (List.filter_sublist _)) ih

/-- A directory-mode configuration (`docs`, no exclusions). -/
def envsDirOnly : Envs :=
  { envsBase with input_md_directory := Option.some "docs" }

/-- A configuration with both input modes set, to exhibit precedence. -/
def envsBoth : Envs :=
  { envsBase with input_file := Option.some "README.md",
                  input_md_directory := Option.some "docs" }

/-- An environment with exactly the five required settings. -/
def envRequiredOnly : String → Option String := fun k =>
  if k = "cloud" then Option.some "site"
  else if k = "user" then Option.some "alice"
  else if k = "token" then Option.some "secret"
  else if k = "parent_page_id" then Option.some "100"
  else if k = "space_id" then Option.some "200"
  else Option.none

/-- Selection-level facts about the directory enumerator: membership in the
selected targets is equivalent to the ".md"-and-not-excluded test, the
targets are duplicate-free whenever the walk lists no path twice, and every
file a directory run actually reads is one of the targets (so excluded and
non-markdown files are never read). -/
theorem directory_selection_characterization :
    (∀ (walk : List (String × List String)) (excl : List String) (p : String),
      p ∈ directory_targets walk excl ↔
        ∃ root files, (root, files) ∈ walk ∧ ∃ f, f ∈ files ∧
          str_endswith f ".md" = true ∧ excl.contains f = false ∧
          p = os_path_join root f) ∧
    (∀ (walk : List (String × List String)) (excl : List String),
      (all_walk_paths walk).Nodup → (directory_targets walk excl).Nodup) ∧
    (∀ (w : World) (env : String → Option String) (envs : Envs) (links : List String)
      (ws d p : String),
      env "GITHUB_WORKSPACE" = Option.some ws →
      envs.input_md_directory = Option.some d →
      Event.fileRead p ∈ (process_directory w env envs links).2 →
      p ∈ directory_targets (w.walk (os_path_join ws d)) (get_exclude envs)) := by
  refine ⟨?_, ?_, ?_⟩
  · intro walk excl p
    simp only [directory_targets, List.mem_flatMap, entry_targets, List.mem_map,
      List.mem_filter, selects, Bool.and_eq_true, Bool.not_eq_true', Prod.exists]
    constructor
    · rintro ⟨root, files, hmem, f, ⟨hf, he, hcont⟩, rfl⟩
      exact ⟨root, files, hmem, f, hf, he, hcont, rfl⟩
    · rintro ⟨root, files, hmem, f, hf, he, hcont, rfl⟩
      exact ⟨root, files, hmem, f, ⟨hf, he, hcont⟩, rfl⟩
  · intro walk excl h
    exact List.Nodup.sublist (directory_targets_sublist walk excl) h
  · intro w env envs links ws d p hws hd hread
    rw [process_directory_run w env envs links ws d hws hd] at hread
    exact walk_loop_reads w envs (get_exclude envs) (w.walk (os_path_join ws d)) links p hread

/-- Concrete membership, duplicate-freeness and reads-soundness instances of
the enumerator characterization, on a walk with an excluded and a non-md
file and on the concrete directory run of the transport-failure scenario. -/
theorem directory_selection_characterization_witness :
    "docs/a.md" ∈ directory_targets [("docs", ["a.md", "b.txt", "skip.md"])] ["skip.md"] ∧
    (directory_targets [("docs", ["a.md", "b.txt", "skip.md"])] ["skip.md"]).Nodup ∧
    "ws/docs/a.md" ∈ directory_targets (wRaise.walk (os_path_join "ws" "docs"))
      (get_exclude envsDirOnly) :=
  ⟨(directory_selection_characterization.1
      [("docs", ["a.md", "b.txt", "skip.md"])] ["skip.md"] "docs/a.md").mpr
    ⟨"docs", ["a.md", "b.txt", "skip.md"], by simp, "a.md", by simp, rfl, rfl, rfl⟩,
   directory_selection_characterization.2.1
    [("docs", ["a.md", "b.txt", "skip.md"])] ["skip.md"] (by decide),
   directory_selection_characterization.2.2 wRaise envDir envsDirOnly [] "ws" "docs"
    "ws/docs/a.md" rfl rfl
    (by show Event.fileRead "ws/docs/a.md" ∈
          [Event.fileRead "ws/docs/a.md",
           Event.httpGet (pages_url envsDirOnly) (page_title_of "ws/docs/a.md"),
           Event.printed ("An error occurred during the HTTP request: " ++ "connection refused")]
        exact List.mem_cons_self _ _)⟩

/-- Scenario world for C8: a directory holding two markdown files, one
excluded markdown file and one non-markdown file, whose lookups complete
(status 200, empty match list). -/
def wDir2 : World :=
  { fs := fun _ => "hello", render := render_model
    walk := fun _ => [("ws/docs", ["a.md", "b.md", "skip.md", "notes.txt"])]
    http_get := fun _ _ => Except.ok
      { status_code := 200, body := PyVal.dict [("results", PyVal.list [])] }
    http_put := fun _ _ => Except.ok { status_code := 200, body := PyVal.dict [] }
    http_post := fun _ _ => Except.ok { status_code := 200, body := PyVal.dict [] } }

/-- A directory-mode environment excluding `skip.md`. -/
def envDirEx : String → Option String := fun k =>
  if k = "cloud" then Option.some "site"
  else if k = "user" then Option.some "alice"
  else if k = "token" then Option.some "secret"
  else if k = "parent_page_id" then Option.some "100"
  else if k = "space_id" then Option.some "200"
  else if k = "input_md_directory" then Option.some "docs"
  else if k = "exclude_files" then Option.some "skip.md"
  else if k = "GITHUB_WORKSPACE" then Option.some "ws"
  else Option.none

/-- C8 (code bug): the selection test admits exactly the markdown files not
in the exclusion list — here `a.md` and `b.md`, once each, with `skip.md`
and `notes.txt` rejected — but the claim's "processed exactly once" fails on
the code: the run reads only `a.md` and then dies on the uncaught
tuple-subscript `TypeError`, so the selected `b.md` is never read or
processed; the excluded and non-markdown files are indeed never read. -/
theorem claim_c8 :
    directory_targets (wDir2.walk (os_path_join "ws" "docs"))
      (get_exclude (envs_of envDirEx "site" "alice" "secret" "100" "200")) =
      ["ws/docs/a.md", "ws/docs/b.md"] ∧
    main wDir2 envDirEx =
      (Except.error (PyError.typeError tuple_subscript_msg),
       [Event.fileRead "ws/docs/a.md",
        Event.httpGet (pages_url (envs_of envDirEx "site" "alice" "secret" "100" "200")) "a"]) ∧
    Event.fileRead "ws/docs/b.md" ∉ (main wDir2 envDirEx).2 ∧
    Event.fileRead "ws/docs/skip.md" ∉ (main wDir2 envDirEx).2 ∧
    Event.fileRead "ws/docs/notes.txt" ∉ (main wDir2 envDirEx).2 := by
  refine ⟨rfl, rfl, ?_, ?_, ?_⟩
  all_goals
    show Event.fileRead _ ∉
      [Event.fileRead "ws/docs/a.md",
       Event.httpGet (pages_url (envs_of envDirEx "site" "alice" "secret" "100" "200")) "a"]
  all_goals simp

/-- C9 (confirmed): the input mode is selected by which optional setting is
present — `input_file` always wins, a directory is walked only when
`input_file` is absent and `input_md_directory` present, and with neither
the run prints the usage message and exits 1 without touching any file. -/
theorem claim_c9 :
    (∀ (w : World) (env : String → Option String) (envs : Envs) (f : String),
      envs.input_file = Option.some f →
      main_select w env envs =
        M.bind (liftE (environ_getitem env "GITHUB_WORKSPACE")) (fun ws =>
          process_file w (os_path_join ws f) envs [])) ∧
    (∀ (w : World) (env : String → Option String) (envs : Envs) (d : String),
      envs.input_file = Option.none →
      envs.input_md_directory = Option.some d →
      main_select w env envs = process_directory w env envs []) ∧
    (∀ (w : World) (env : String → Option String) (c u t p s : String),
      env "cloud" = Option.some c → c ≠ "" →
      env "user" = Option.some u → u ≠ "" →
      env "token" = Option.some t → t ≠ "" →
      env "parent_page_id" = Option.some p → p ≠ "" →
      env "space_id" = Option.some s → s ≠ "" →
      env "input_file" = Option.none →
      env "input_md_directory" = Option.none →
      main w env =
        (Except.error (PyError.systemExit 1),
         [Event.printed "No specific input provided."]) ∧
      exitCode (main w env).1 = 1 ∧
      (∀ q, Event.fileRead q ∉ (main w env).2)) := by
  refine ⟨?_, ?_, ?_⟩
  · intro w env envs f h
    unfold main_select
    rw [h]
    rfl
  · intro w env envs d h1 h2
    unfold main_select
    rw [h1, h2]
  · intro w env c u t p s hc hc' hu hu' ht ht' hp hp' hs hs' hif himd
    have hload : load_environment_variables env =
        (Except.ok (envs_of env c u t p s), []) :=
      load_ok env c u t p s hc hc' hu hu' ht ht' hp hp' hs hs'
    have hsel : main_select w env (envs_of env c u t p s) =
        (Except.error (PyError.systemExit 1),
         [Event.printed "No specific input provided."]) := by
      unfold main_select envs_of
      simp [hif, himd, M.bind]
    have hmain : main w env =
        (Except.error (PyError.systemExit 1),
         [Event.printed "No specific input provided."]) := by
      unfold main
      simp only [M.bind_eq]
      rw [hload, M.bind_ok]
      simp only [List.nil_append]
      rw [hsel, M.bind_err]
    refine ⟨hmain, by rw [hmain]; rfl, ?_⟩
    intro q
    rw [hmain]
    simp

/-- Witness for C9: precedence with both modes set, directory mode with only
the directory set, and the usage-error exit with neither set. -/
theorem claim_c9_witness :
    (main_select wIdent envDir envsBoth =
      M.bind (liftE (environ_getitem envDir "GITHUB_WORKSPACE")) (fun ws =>
        process_file wIdent (os_path_join ws "README.md") envsBoth [])) ∧
    (main_select wIdent envDir envsDirOnly = process_directory wIdent envDir envsDirOnly []) ∧
    (main wIdent envRequiredOnly =
      (Except.error (PyError.systemExit 1),
       [Event.printed "No specific input provided."]) ∧
     exitCode (main wIdent envRequiredOnly).1 = 1 ∧
     (∀ q, Event.fileRead q ∉ (main wIdent envRequiredOnly).2)) :=
  ⟨claim_c9.1 wIdent envDir envsBoth "README.md" rfl,
   claim_c9.2.1 wIdent envDir envsDirOnly "docs" rfl rfl,
   claim_c9.2.2 wIdent envRequiredOnly "site" "alice" "secret" "100" "200"
     rfl (by decide) rfl (by decide) rfl (by decide) rfl (by decide) rfl (by decide)
     rfl rfl⟩

/-- C10 (confirmed): the loader never validates `GITHUB_WORKSPACE` — it
succeeds without it — and a run with an input mode configured then dies on
an uncaught `KeyError` for `GITHUB_WORKSPACE` with an empty trace: no
"Missing value" diagnostic, no configuration-error exit. -/
theorem claim_c10 (w : World) (env : String → Option String) (c u t p s : String)
    (hc : env "cloud" = Option.some c) (hc' : c ≠ "")
    (hu : env "user" = Option.some u) (hu' : u ≠ "")
    (ht : env "token" = Option.some t) (ht' : t ≠ "")
    (hp : env "parent_page_id" = Option.some p) (hp' : p ≠ "")
    (hs : env "space_id" = Option.some s) (hs' : s ≠ "")
    (hgw : env "GITHUB_WORKSPACE" = Option.none) :
    load_environment_variables env = (Except.ok (envs_of env c u t p s), []) ∧
    (∀ f, env "input_file" = Option.some f →
      main w env = (Except.error (PyError.keyError "GITHUB_WORKSPACE"), []) ∧
      exitCode (main w env).1 = 1) ∧
    (env "input_file" = Option.none →
      ∀ d, env "input_md_directory" = Option.some d →
      main w env = (Except.error (PyError.keyError "GITHUB_WORKSPACE"), []) ∧
      exitCode (main w env).1 = 1) := by
  have hload : load_environment_variables env =
      (Except.ok (envs_of env c u t p s), []) :=
    load_ok env c u t p s hc hc' hu hu' ht ht' hp hp' hs hs'
  refine ⟨hload, ?_, ?_⟩
  · intro f hf
    have hsel : main_select w env (envs_of env c u t p s) =
        (Except.error (PyError.keyError "GITHUB_WORKSPACE"), []) := by
      unfold main_select envs_of
      simp [hf, environ_getitem, hgw, M.bind]
    have hmain : main w env = (Except.error (PyError.keyError "GITHUB_WORKSPACE"), []) := by
      unfold main
      simp only [M.bind_eq]
      rw [hload, M.bind_ok]
      simp only [List.nil_append]
      rw [hsel, M.bind_err]
    exact ⟨hmain, by rw [hmain]; rfl⟩
  · intro hif d hd
    have hpd := process_directory_no_workspace w env (envs_of env c u t p s) [] hgw
    have hif' : (envs_of env c u t p s).input_file = Option.none := by
      simp [envs_of, hif]
    have hd' : (envs_of env c u t p s).input_md_directory = Option.some d := by
      simp [envs_of, hd]
    have hsel : main_select w env (envs_of env c u t p s) =
        (Except.error (PyError.keyError "GITHUB_WORKSPACE"), []) := by
      unfold main_select
      rw [hif', hd']
      exact hpd
    have hmain : main w env = (Except.error (PyError.keyError "GITHUB_WORKSPACE"), []) := by
      unfold main
      simp only [M.bind_eq]
      rw [hload, M.bind_ok]
      simp only [List.nil_append]
      rw [hsel, M.bind_err]
    exact ⟨hmain, by rw [hmain]; rfl⟩

/-- Witness for C10: a single-file configuration without a workspace root
loads fine and then dies on the `GITHUB_WORKSPACE` `KeyError`. -/
theorem claim_c10_witness :
    load_environment_variables envNoWorkspace =
      (Except.ok (envs_of envNoWorkspace "site" "alice" "secret" "100" "200"), []) ∧
    (main wIdent envNoWorkspace =
      (Except.error (PyError.keyError "GITHUB_WORKSPACE"), []) ∧
     exitCode (main wIdent envNoWorkspace).1 = 1) :=
  ⟨(claim_c10 wIdent envNoWorkspace "site" "alice" "secret" "100" "200"
      rfl (by decide) rfl (by decide) rfl (by decide) rfl (by decide) rfl (by decide) rfl).1,
   (claim_c10 wIdent envNoWorkspace "site" "alice" "secret" "100" "200"
      rfl (by decide) rfl (by decide) rfl (by decide) rfl (by decide) rfl (by decide) rfl).2.1
     "README.md" rfl⟩

end ConfluenceSync
